import Mathlib

/-!
Shallow embedding of the PostHog frontend sessions-table state module
(`sessionsTableLogic`, a kea logic) and its URL synchronizer.

Modelling conventions:

* Moment dates are used by the code exclusively at calendar-day
  granularity (`startOf('day')`, `format('YYYY-MM-DD')`, `add(±1, 'day')`).
  Since `YYYY-MM-DD` formatting is injective on start-of-day moments and
  parsing is its inverse, a date is modelled as an integer day number
  (`Day := Int`); equality of formatted strings is day equality, and the
  URL `date` parameter carries the day directly.
* JavaScript truthiness is modelled explicitly where the code branches on
  it: `undefined`/`null` and the empty string are falsy, the number 0 is
  falsy, and every array (including `[]`) is truthy.
* `JSON.stringify` comparison of property-filter lists is modelled as
  list equality (serialization of these plain records is injective).
* Asynchronous completions are modelled as explicit functions from the
  pre-completion state and the server response (`none` = network/server
  failure) to the post-completion state, mirroring exactly which actions
  the code dispatches in each case.
-/

/-- Calendar day at start-of-day granularity, as an integer day number. -/
abbrev Day := Int

/-- Session-recording identifier (a string in the source). -/
abbrev SessionRecordingId := String

/-- Property filter predicate. The code passes these through unchanged as
opaque key/operator/value triples; only equality of whole lists matters. -/
structure PropertyFilter where
  key : String
  op : String
  value : String
deriving DecidableEq, Repr

/-- Session record (`SessionType`). Only the fields the module reads are
modelled: an identifier and the flattened list of recording ids. -/
structure SessionType where
  global_session_id : Nat
  session_recording_ids : List SessionRecordingId
deriving DecidableEq, Repr

/-- JavaScript truthiness of an optional string: `undefined`/`null` and
the empty string are falsy. -/
def jsTruthyStr : Option String → Bool
  | none => false
  | some s => s ≠ ""

/-- JavaScript truthiness of an optional number: `undefined`/`null` and 0
are falsy. -/
def jsTruthyInt : Option Int → Bool
  | none => false
  | some n => n ≠ 0

/-- The state held by the kea reducers of `sessionsTableLogic`. -/
structure SessionsTableState where
  sessions : List SessionType
  isLoadingNext : Bool
  nextOffset : Option Int
  selectedDate : Option Day
  properties : List PropertyFilter
  sessionRecordingId : Option SessionRecordingId
deriving DecidableEq, Repr

/-- The default state given by the reducers' default values. -/
def initialState : SessionsTableState :=
  { sessions := []
    isLoadingNext := false
    nextOffset := none
    selectedDate := none
    properties := []
    sessionRecordingId := none }

/-- Actions dispatched to the reducers. `loadSessionsSuccess` and
`loadSessionsFailure` are the kea-loader completion actions for the
`sessions` loader. -/
inductive LogicAction where
  | setNextOffset (nextOffset : Option Int)
  | fetchNextSessions
  | appendNewSessions (sessions : List SessionType)
  | setFilters (properties : List PropertyFilter) (selectedDate : Option Day)
  | setSessionRecordingId (sessionRecordingId : SessionRecordingId)
  | closeSessionPlayer
  | loadSessionsSuccess (sessions : List SessionType)
  | loadSessionsFailure
deriving DecidableEq, Repr

/-- The reducers, combined: each action updates exactly the fields whose
reducer handles it, per the `reducers` block of the source. -/
def applyAction (s : SessionsTableState) : LogicAction → SessionsTableState
  | .setNextOffset n => { s with nextOffset := n }
  | .fetchNextSessions => { s with isLoadingNext := true }
  | .appendNewSessions xs =>
      { s with sessions := s.sessions ++ xs, isLoadingNext := false }
  | .setFilters ps d => { s with properties := ps, selectedDate := d }
  | .setSessionRecordingId rid => { s with sessionRecordingId := some rid }
  | .closeSessionPlayer => { s with sessionRecordingId := none }
  | .loadSessionsSuccess xs => { s with sessions := xs }
  | .loadSessionsFailure => { s with sessions := [], nextOffset := none }

/-- Server response shape for `api/insight/session/`. -/
structure SessionsApiResponse where
  result : List SessionType
  offset : Option Int
deriving DecidableEq, Repr

/-- An HTTP request issued to `api/insight/session/`, with the query
parameters each call site fills in (`toParams` drops absent fields). -/
structure SessionsApiRequest where
  date_from : Option Day
  date_to : Option Day
  offset : Option Int
  distinct_id : Option String
  properties : Option (List PropertyFilter)
deriving DecidableEq, Repr

/-- Dispatching `setFilters`: the `setFilters` reducers run, then its
listener synchronously dispatches `setNextOffset(null)` (and initiates a
`loadSessions` request, which changes no modelled state until it
completes). -/
def dispatchSetFilters (s : SessionsTableState) (ps : List PropertyFilter)
    (d : Option Day) : SessionsTableState :=
  applyAction (applyAction s (.setFilters ps d)) (.setNextOffset none)

/-- The request issued by the `loadSessions` loader for state `s` with the
component prop `personIds`. -/
def loadSessionsRequest (personIds : Option (List String))
    (s : SessionsTableState) : SessionsApiRequest :=
  { date_from := s.selectedDate
    date_to := s.selectedDate
    offset := some 0
    distinct_id := some (match personIds with
      | some (p :: _) => p
      | _ => "")
    properties := some s.properties }

/-- Commit of a successful `loadSessions` response: the loader dispatches
`setNextOffset(response.offset)` only when `response.offset` is truthy,
then returns `response.result`, which kea commits as
`loadSessionsSuccess`. -/
def loadSessionsCommit (s : SessionsTableState)
    (resp : SessionsApiResponse) : SessionsTableState :=
  let s1 := if jsTruthyInt resp.offset then
              applyAction s (.setNextOffset resp.offset)
            else s
  applyAction s1 (.loadSessionsSuccess resp.result)

/-- Modelled from the spec: the kea `breakpoint` guard of the
`loadSessions` loader is library behavior absent from the sources; per the
spec, each async operation checks immediately before committing its result
whether it is still the most recent request of its kind and silently
discards its result otherwise. `superseded = true` models a request that
is no longer the most recent when its `breakpoint()` call runs; a `none`
response models an `api.get` failure, committed as
`loadSessionsFailure`. -/
def loadSessionsComplete (s : SessionsTableState) (superseded : Bool)
    (resp : Option SessionsApiResponse) : SessionsTableState :=
  if superseded then s
  else
    match resp with
    | some r => loadSessionsCommit s r
    | none => applyAction s .loadSessionsFailure

/-- The request issued by the `fetchNextSessions` listener for state `s`:
date range from the selected date and `offset` from the stored cursor
(`toParams` includes only these three fields). -/
def fetchNextSessionsRequest (s : SessionsTableState) : SessionsApiRequest :=
  { date_from := s.selectedDate
    date_to := s.selectedDate
    offset := s.nextOffset
    distinct_id := none
    properties := none }

/-- Commit of a completed `fetchNextSessions` response: the listener
dispatches `setNextOffset(response.offset)` when `response.offset` is
truthy and `setNextOffset(null)` otherwise, then
`appendNewSessions(response.result)`. -/
def fetchNextSessionsCommit (s : SessionsTableState)
    (resp : SessionsApiResponse) : SessionsTableState :=
  let s1 := applyAction s
    (.setNextOffset (if jsTruthyInt resp.offset then resp.offset else none))
  applyAction s1 (.appendNewSessions resp.result)

/-- A full `fetchNextSessions` invocation: the action's reducer sets
`isLoadingNext` to true, then the listener unconditionally issues the
next-page request. On `api.get` failure (`resp = none`) the listener
aborts with no further dispatch; on response it passes `breakpoint()`
unless superseded, then commits. Returns the list of requests issued
together with the resulting state. -/
def fetchNextSessionsRun (s : SessionsTableState) (superseded : Bool)
    (resp : Option SessionsApiResponse) :
    List SessionsApiRequest × SessionsTableState :=
  let s0 := applyAction s .fetchNextSessions
  let req := fetchNextSessionsRequest s0
  match resp with
  | none => ([req], s0)
  | some r => ([req], if superseded then s0 else fetchNextSessionsCommit s0 r)

/-- Selector `orderedSessionRecordingIds`: flatMap of the loaded sessions'
recording-id lists. -/
def orderedSessionRecordingIds (sessions : List SessionType) :
    List SessionRecordingId :=
  sessions.flatMap (fun session => session.session_recording_ids)

/-- Stated from the spec words for claim C8: the concatenation, in load
order, of each session's recording-id list. -/
def concatenatedRecordingIds (sessions : List SessionType) :
    List SessionRecordingId :=
  (sessions.map (fun session => session.session_recording_ids)).flatten

/-- Result of the `sessionRecordingNavigation` selector: optional next and
prev recording ids. -/
structure RecordingNavigation where
  next : Option SessionRecordingId := none
  prev : Option SessionRecordingId := none
deriving DecidableEq, Repr

/-- Selector `sessionRecordingNavigation`. JavaScript `indexOf` returns -1
exactly when the id is absent, in which case both guards
(`index !== -1 && index < recordings.length - 1` and `index > 0`) fail and
the result is empty; when the id is present, `index` is the first
occurrence and the guards are the Nat conditions below. -/
def sessionRecordingNavigation (recordings : List SessionRecordingId)
    (recordingId : Option SessionRecordingId) : RecordingNavigation :=
  match recordingId with
  | none => {}
  | some rid =>
    if rid ∈ recordings then
      let index := recordings.indexOf rid
      { next := if index + 1 < recordings.length then
                  recordings[index + 1]?
                else none
        prev := if 0 < index then recordings[index - 1]? else none }
    else {}

/-- URL query parameters read and written by the module. The `date`
parameter carries the day denoted by its `YYYY-MM-DD` string. -/
structure Params where
  date : Option Day
  properties : Option (List PropertyFilter)
  sessionRecordingId : Option SessionRecordingId
deriving DecidableEq, Repr

/-- The `buildURL` helper. `today` is the current calendar day
(`moment().startOf('day')`). The date parameter is written only when the
formatted selected date differs from today (an absent selected date writes
`undefined`, i.e. no parameter). `properties` is copied from the router's
current search parameters — not from the logic's state — and any present
array (including `[]`) is truthy; `sessionRecordingId` is written only
when truthy. -/
def buildURL (today : Day) (routerProperties : Option (List PropertyFilter))
    (selectedDateURLparam : Option Day)
    (sessionRecordingId : Option SessionRecordingId) : Params :=
  { date := if selectedDateURLparam = some today then none
            else selectedDateURLparam
    properties := routerProperties
    sessionRecordingId := if jsTruthyStr sessionRecordingId then
                            sessionRecordingId
                          else none }

/-- The actions the `urlToAction` handler decides to dispatch: an optional
`setFilters` call with its arguments, whether `loadSessions` is triggered,
and an optional `setSessionRecordingId` call. -/
structure UrlToActionEffect where
  setFiltersCall : Option (List PropertyFilter × Day)
  loadSessionsTriggered : Bool
  setSessionRecordingIdCall : Option SessionRecordingId
deriving DecidableEq, Repr

/-- First half of the filter-branch condition of `urlToAction`: the
`JSON.stringify` comparison of the URL properties (defaulting to `[]`)
against the state's. -/
def propsDifferB (urlProps : Option (List PropertyFilter))
    (stateProps : List PropertyFilter) : Bool :=
  decide (urlProps.getD [] ≠ stateProps)

/-- Second half of the filter-branch condition of `urlToAction`: short-
circuit on `values.selectedDate` (a moment object is truthy exactly when a
date is selected), then formatted-day inequality against `newDate`. -/
def dateDiffersB (sel : Option Day) (newDate : Day) : Bool :=
  match sel with
  | some d0 => decide (d0 ≠ newDate)
  | none => false

/-- The `urlToAction` handler. `newDate` defaults to today when the URL
has no date. The filter branch fires when the decoded properties
(defaulting to `[]`) differ from the state's, or when a date is currently
selected (a moment object is always truthy) and its formatted day differs
from `newDate`; otherwise `loadSessions` is triggered when no sessions are
loaded. Independently, the selection is updated when the URL carries a
truthy recording id different from the current one. -/
def urlToAction (today : Day) (s : SessionsTableState) (params : Params) :
    UrlToActionEffect :=
  let newDate : Day := params.date.getD today
  let recCall : Option SessionRecordingId :=
    match params.sessionRecordingId with
    | some rid =>
        if rid ≠ "" ∧ s.sessionRecordingId ≠ some rid then some rid else none
    | none => none
  if propsDifferB params.properties s.properties ||
      dateDiffersB s.selectedDate newDate then
    { setFiltersCall := some (params.properties.getD [], newDate)
      loadSessionsTriggered := false
      setSessionRecordingIdCall := recCall }
  else if s.sessions.length = 0 then
    { setFiltersCall := none
      loadSessionsTriggered := true
      setSessionRecordingIdCall := recCall }
  else
    { setFiltersCall := none
      loadSessionsTriggered := false
      setSessionRecordingIdCall := recCall }

/-- State transition performed synchronously by `urlToAction`: the
`setFilters` dispatch (with its listener) when the filter branch fires,
then the `setSessionRecordingId` dispatch when the selection changes. The
triggered `loadSessions` request mutates no state until it completes. -/
def applyUrlToActionState (today : Day) (s : SessionsTableState)
    (params : Params) : SessionsTableState :=
  let e := urlToAction today s params
  let s1 := match e.setFiltersCall with
    | some pd => dispatchSetFilters s pd.1 (some pd.2)
    | none => s
  match e.setSessionRecordingIdCall with
  | some rid => applyAction s1 (.setSessionRecordingId rid)
  | none => s1

/-- The operation surface of the module: user-initiated dispatches and
asynchronous completions, each an atomic state transition on the
single-threaded event loop. `previousDay`/`nextDay` shift the selected day
by ∓1 through `setFilters` (an absent selected date stays absent, modelling
the invalid moment produced by `moment(null)`). -/
inductive Op where
  | setFilters (ps : List PropertyFilter) (d : Option Day)
  | loadSessionsDone (superseded : Bool) (resp : Option SessionsApiResponse)
  | fetchNextDone (superseded : Bool) (resp : Option SessionsApiResponse)
  | setSessionRecordingId (rid : SessionRecordingId)
  | closeSessionPlayer
  | previousDay
  | nextDay
  | urlChange (today : Day) (params : Params)
deriving DecidableEq, Repr

/-- Runs one operation on the state. -/
def runOp (o : Op) (s : SessionsTableState) : SessionsTableState :=
  match o with
  | .setFilters ps d => dispatchSetFilters s ps d
  | .loadSessionsDone superseded resp => loadSessionsComplete s superseded resp
  | .fetchNextDone superseded resp => (fetchNextSessionsRun s superseded resp).2
  | .setSessionRecordingId rid => applyAction s (.setSessionRecordingId rid)
  | .closeSessionPlayer => applyAction s .closeSessionPlayer
  | .previousDay =>
      dispatchSetFilters s s.properties (s.selectedDate.map (fun d => d - 1))
  | .nextDay =>
      dispatchSetFilters s s.properties (s.selectedDate.map (fun d => d + 1))
  | .urlChange today params => applyUrlToActionState today s params

/-- An operation is a successful, non-superseded fetch completion exactly
when it commits a server response. -/
def isFetchSuccess : Op → Bool
  | .loadSessionsDone false (some _) => true
  | .fetchNextDone false (some _) => true
  | _ => false

/-- Modelled from the spec: the request-generation guard. A `loadSessions`
call is tagged with the generation counter current when it started
(`myGen`); at commit time it compares against the latest generation
(`latestGen`) and is discarded when superseded. -/
def loadSessionsRunGen (s : SessionsTableState) (myGen latestGen : Nat)
    (resp : Option SessionsApiResponse) : SessionsTableState :=
  loadSessionsComplete s (decide (myGen ≠ latestGen)) resp

/-- C8: the derived ordered recording-id sequence equals the concatenation,
in load order, of each loaded session's recording-id list, preserving both
session order and per-session order. -/
theorem c8_flattening_order_preserving (sessions : List SessionType) :
    orderedSessionRecordingIds sessions = concatenatedRecordingIds sessions := by
  simp [orderedSessionRecordingIds, concatenatedRecordingIds,
    List.flatMap_def]

/-- C10: the reducers of `setSessionRecordingId` and `closeSessionPlayer`
change only the `sessionRecordingId` field; the session list, cursor,
loading-next flag, selected date, and property filters are untouched. -/
theorem c10_selection_actions_frame (s : SessionsTableState)
    (rid : SessionRecordingId) :
    (applyAction s (.setSessionRecordingId rid)).sessions = s.sessions ∧
    (applyAction s (.setSessionRecordingId rid)).isLoadingNext =
      s.isLoadingNext ∧
    (applyAction s (.setSessionRecordingId rid)).nextOffset = s.nextOffset ∧
    (applyAction s (.setSessionRecordingId rid)).selectedDate =
      s.selectedDate ∧
    (applyAction s (.setSessionRecordingId rid)).properties = s.properties ∧
    (applyAction s (.setSessionRecordingId rid)).sessionRecordingId =
      some rid ∧
    (applyAction s .closeSessionPlayer).sessions = s.sessions ∧
    (applyAction s .closeSessionPlayer).isLoadingNext = s.isLoadingNext ∧
    (applyAction s .closeSessionPlayer).nextOffset = s.nextOffset ∧
    (applyAction s .closeSessionPlayer).selectedDate = s.selectedDate ∧
    (applyAction s .closeSessionPlayer).properties = s.properties ∧
    (applyAction s .closeSessionPlayer).sessionRecordingId = none :=
  ⟨rfl, rfl, rfl, rfl, rfl, rfl, rfl, rfl, rfl, rfl, rfl, rfl⟩

/-- C1 counterexample: against the claim, a failed next-page fetch does
not set the loading-next flag to false — at a concrete state with a
loaded page and a stored cursor, the flag is true after the failure (the
`fetchNextSessions` reducer set it and no failure path resets it). -/
theorem c1_counterexample :
    (fetchNextSessionsRun
      { sessions := [{ global_session_id := 1,
                       session_recording_ids := ["r1"] }]
        isLoadingNext := false
        nextOffset := some 20
        selectedDate := some 18748
        properties := []
        sessionRecordingId := none }
      false none).2.isLoadingNext = true ∧
    (fetchNextSessionsRun
      { sessions := [{ global_session_id := 1,
                       session_recording_ids := ["r1"] }]
        isLoadingNext := false
        nextOffset := some 20
        selectedDate := some 18748
        properties := []
        sessionRecordingId := none }
      false none).2.isLoadingNext ≠ false := by
  decide

/-- C1 (amended): a failed initial load leaves the session list empty and
the cursor null; a failed next-page fetch leaves the already-loaded
session list and the cursor unchanged, but the loading-next flag remains
true, since only `appendNewSessions` resets it and no action is dispatched
on the failure path. -/
theorem c1_failure_semantics (s : SessionsTableState) :
    (loadSessionsComplete s false none).sessions = [] ∧
    (loadSessionsComplete s false none).nextOffset = none ∧
    (fetchNextSessionsRun s false none).2.sessions = s.sessions ∧
    (fetchNextSessionsRun s false none).2.nextOffset = s.nextOffset ∧
    (fetchNextSessionsRun s false none).2.isLoadingNext = true :=
  ⟨rfl, rfl, rfl, rfl, rfl⟩

/-- C2 counterexample: against the claim, at the (trivially reachable)
default state, whose cursor is null, invoking `fetchNextSessions` does
issue a request — the listener has no guard on the cursor. -/
theorem c2_counterexample :
    initialState.nextOffset = none ∧
    (fetchNextSessionsRun initialState false none).1 ≠ [] := by
  decide

/-- C2 (amended): in every state whose cursor is null, invoking
`fetchNextSessions` issues exactly one request, carrying a null offset —
the listener never checks the cursor before fetching. -/
theorem c2_fetch_without_cursor (s : SessionsTableState) (superseded : Bool)
    (resp : Option SessionsApiResponse) (h : s.nextOffset = none) :
    (fetchNextSessionsRun s superseded resp).1 =
      [{ date_from := s.selectedDate
         date_to := s.selectedDate
         offset := none
         distinct_id := none
         properties := none }] := by
  cases resp <;>
    simp [fetchNextSessionsRun, fetchNextSessionsRequest, applyAction, h]

/-- C2 witness: the amended theorem evaluated at the default state. -/
theorem c2_witness :
    initialState.nextOffset = none ∧
    (fetchNextSessionsRun initialState false none).1 =
      [{ date_from := none
         date_to := none
         offset := none
         distinct_id := none
         properties := none }] :=
  ⟨rfl, c2_fetch_without_cursor initialState false none rfl⟩

/-- C9: a superseded `loadSessions` request (its generation is no longer
the latest at commit time) is discarded without mutating any state: the
session list and the cursor are unchanged by that request. -/
theorem c9_superseded_request_discarded (s : SessionsTableState)
    (myGen latestGen : Nat) (resp : Option SessionsApiResponse)
    (h : myGen ≠ latestGen) :
    loadSessionsRunGen s myGen latestGen resp = s := by
  simp [loadSessionsRunGen, loadSessionsComplete, h]

/-- C9 witness: a request of generation 0 completing when the latest
generation is 1 leaves the default state untouched. -/
theorem c9_witness :
    loadSessionsRunGen initialState 0 1
      (some { result := [{ global_session_id := 7,
                           session_recording_ids := ["r7"] }]
              offset := some 20 }) = initialState :=
  c9_superseded_request_discarded initialState 0 1 _ (by decide)

/-- C6: with a stored cursor, a successful (non-superseded)
`fetchNextSessions` appends the returned page to the end of the existing
session list, sets the loading-next flag to false, and sets the cursor to
the server's returned offset, or to null when the server reports none
remaining. -/
theorem c6_fetch_next_success (s : SessionsTableState)
    (resp : SessionsApiResponse) (_hcursor : s.nextOffset ≠ none) :
    (fetchNextSessionsRun s false (some resp)).2.sessions =
      s.sessions ++ resp.result ∧
    (fetchNextSessionsRun s false (some resp)).2.isLoadingNext = false ∧
    (∀ n : Int, resp.offset = some n → n ≠ 0 →
      (fetchNextSessionsRun s false (some resp)).2.nextOffset = some n) ∧
    (resp.offset = none →
      (fetchNextSessionsRun s false (some resp)).2.nextOffset = none) := by
  refine ⟨rfl, rfl, ?_, ?_⟩
  · intro n hn hnz
    simp [fetchNextSessionsRun, fetchNextSessionsCommit, applyAction,
      jsTruthyInt, hn, hnz]
  · intro hn
    simp [fetchNextSessionsRun, fetchNextSessionsCommit, applyAction,
      jsTruthyInt, hn]

/-- C6 witness: the spec scenario — list `[S1, S2]` with cursor 20, server
returns `result = [S3], offset = null`; the result is `[S1, S2, S3]`, a
null cursor, and loading-next false. -/
theorem c6_witness :
    (fetchNextSessionsRun
      { sessions := [{ global_session_id := 1,
                       session_recording_ids := ["r1"] },
                     { global_session_id := 2,
                       session_recording_ids := ["r2"] }]
        isLoadingNext := true
        nextOffset := some 20
        selectedDate := some 18748
        properties := []
        sessionRecordingId := none }
      false
      (some { result := [{ global_session_id := 3,
                           session_recording_ids := ["r3"] }]
              offset := none })).2.sessions =
      [{ global_session_id := 1, session_recording_ids := ["r1"] },
       { global_session_id := 2, session_recording_ids := ["r2"] }] ++
      [{ global_session_id := 3, session_recording_ids := ["r3"] }] ∧
    (fetchNextSessionsRun
      { sessions := [{ global_session_id := 1,
                       session_recording_ids := ["r1"] },
                     { global_session_id := 2,
                       session_recording_ids := ["r2"] }]
        isLoadingNext := true
        nextOffset := some 20
        selectedDate := some 18748
        properties := []
        sessionRecordingId := none }
      false
      (some { result := [{ global_session_id := 3,
                           session_recording_ids := ["r3"] }]
              offset := none })).2.isLoadingNext = false ∧
    (fetchNextSessionsRun
      { sessions := [{ global_session_id := 1,
                       session_recording_ids := ["r1"] },
                     { global_session_id := 2,
                       session_recording_ids := ["r2"] }]
        isLoadingNext := true
        nextOffset := some 20
        selectedDate := some 18748
        properties := []
        sessionRecordingId := none }
      false
      (some { result := [{ global_session_id := 3,
                           session_recording_ids := ["r3"] }]
              offset := none })).2.nextOffset = none := by
  have h := c6_fetch_next_success
    { sessions := [{ global_session_id := 1,
                     session_recording_ids := ["r1"] },
                   { global_session_id := 2,
                     session_recording_ids := ["r2"] }]
      isLoadingNext := true
      nextOffset := some 20
      selectedDate := some 18748
      properties := []
      sessionRecordingId := none }
    { result := [{ global_session_id := 3,
                   session_recording_ids := ["r3"] }]
      offset := none }
    (by decide)
  exact ⟨h.1, h.2.1, h.2.2.2 rfl⟩

/-- C5: immediately after a `setFilters` dispatch the cursor is null;
every operation other than a successful fetch completion preserves a null
cursor; and a successful fetch completion sets the cursor from the
server's returned offset (null when the offset is absent or 0, i.e.
falsy). -/
theorem c5_cursor_null_after_set_filters :
    (∀ (s : SessionsTableState) (ps : List PropertyFilter) (d : Option Day),
      (dispatchSetFilters s ps d).nextOffset = none) ∧
    (∀ (s : SessionsTableState) (o : Op), s.nextOffset = none →
      isFetchSuccess o = false → (runOp o s).nextOffset = none) ∧
    (∀ (s : SessionsTableState) (r : SessionsApiResponse),
      s.nextOffset = none →
      (runOp (Op.loadSessionsDone false (some r)) s).nextOffset =
        (if jsTruthyInt r.offset then r.offset else none) ∧
      (runOp (Op.fetchNextDone false (some r)) s).nextOffset =
        (if jsTruthyInt r.offset then r.offset else none)) := by
  refine ⟨fun s ps d => rfl, ?_, ?_⟩
  · intro s o hnull hnf
    cases o with
    | setFilters ps d => rfl
    | loadSessionsDone superseded resp =>
        cases superseded with
        | true => simpa [runOp, loadSessionsComplete] using hnull
        | false =>
            cases resp with
            | none => rfl
            | some r => simp [isFetchSuccess] at hnf
    | fetchNextDone superseded resp =>
        cases superseded with
        | true =>
            cases resp with
            | none => simpa [runOp, fetchNextSessionsRun, applyAction]
                using hnull
            | some r => simpa [runOp, fetchNextSessionsRun, applyAction]
                using hnull
        | false =>
            cases resp with
            | none => simpa [runOp, fetchNextSessionsRun, applyAction]
                using hnull
            | some r => simp [isFetchSuccess] at hnf
    | setSessionRecordingId rid => simpa [runOp, applyAction] using hnull
    | closeSessionPlayer => simpa [runOp, applyAction] using hnull
    | previousDay => rfl
    | nextDay => rfl
    | urlChange today params =>
        simp only [runOp, applyUrlToActionState]
        cases hsf : (urlToAction today s params).setFiltersCall with
        | none =>
            cases hrc : (urlToAction today s params).setSessionRecordingIdCall
              with
            | none => simpa [hsf, hrc] using hnull
            | some rid => simpa [hsf, hrc, applyAction] using hnull
        | some pd =>
            cases hrc : (urlToAction today s params).setSessionRecordingIdCall
              with
            | none => simp [hsf, hrc, dispatchSetFilters, applyAction]
            | some rid => simp [hsf, hrc, dispatchSetFilters, applyAction]
  · intro s r hnull
    constructor
    · by_cases hoff : jsTruthyInt r.offset
      · simp [runOp, loadSessionsComplete, loadSessionsCommit, applyAction,
          hoff]
      · simpa [runOp, loadSessionsComplete, loadSessionsCommit, applyAction,
          hoff] using hnull
    · by_cases hoff : jsTruthyInt r.offset
      · simp [runOp, fetchNextSessionsRun, fetchNextSessionsCommit,
          applyAction, hoff]
      · simp [runOp, fetchNextSessionsRun, fetchNextSessionsCommit,
          applyAction, hoff]

/-- C5 witness: at the default state, a `setFilters` dispatch yields a
null cursor, `closeSessionPlayer` preserves it, and a successful initial
load whose response carries offset 20 sets the cursor to 20. -/
theorem c5_witness :
    (dispatchSetFilters initialState [] none).nextOffset = none ∧
    (runOp Op.closeSessionPlayer initialState).nextOffset = none ∧
    (runOp (Op.loadSessionsDone false
      (some { result := [], offset := some 20 })) initialState).nextOffset =
      some 20 := by
  refine ⟨c5_cursor_null_after_set_filters.1 initialState [] none,
    c5_cursor_null_after_set_filters.2.1 initialState Op.closeSessionPlayer
      rfl rfl, ?_⟩
  have h := (c5_cursor_null_after_set_filters.2.2 initialState
    { result := [], offset := some 20 } rfl).1
  simpa [jsTruthyInt] using h

/-- C3 counterexample: two concrete URL changes on which the claim fails.
First, at the default state (no date selected yet) a URL carrying the date
day 5 decodes to a date that differs from the current (absent) one, yet
`setFilters` is not called — the handler compares dates only when a date
is already selected. Second, with recording r1 selected, a URL carrying no
recording id decodes to a selection (none) that differs from the current
one, yet the selection is not updated — the handler acts only on a
present id. -/
theorem c3_counterexample :
    ((urlToAction 0 initialState
        { date := some 5, properties := none, sessionRecordingId := none
        }).setFiltersCall = none ∧
      some (({ date := some 5, properties := none, sessionRecordingId := none
        } : Params).date.getD 0) ≠ initialState.selectedDate) ∧
    ((applyUrlToActionState 0
        { initialState with sessionRecordingId := some "r1" }
        { date := none, properties := none, sessionRecordingId := none
        }).sessionRecordingId = some "r1" ∧
      ({ date := none, properties := none, sessionRecordingId := none
        } : Params).sessionRecordingId ≠ (some "r1" : Option String)) := by
  decide

/-- C3 (amended): on an inbound URL change, if the decoded properties
differ from the current ones, or a date is currently selected and differs
from the decoded date, `setFilters` is called with the decoded values
(properties defaulting to empty, date defaulting to today); otherwise,
when no sessions are loaded, `loadSessions` is triggered; and whenever the
URL carries a non-empty recording id that differs from the current
selection, the selection is updated to it. -/
theorem c3_url_to_action (today : Day) (s : SessionsTableState)
    (params : Params) :
    (params.properties.getD [] ≠ s.properties ∨
        (∃ d0, s.selectedDate = some d0 ∧ d0 ≠ params.date.getD today) →
      (urlToAction today s params).setFiltersCall =
        some (params.properties.getD [], params.date.getD today)) ∧
    (params.properties.getD [] = s.properties →
      (∀ d0, s.selectedDate = some d0 → d0 = params.date.getD today) →
      s.sessions = [] →
      (urlToAction today s params).loadSessionsTriggered = true) ∧
    (∀ rid, params.sessionRecordingId = some rid → rid ≠ "" →
      s.sessionRecordingId ≠ some rid →
      (urlToAction today s params).setSessionRecordingIdCall = some rid) := by
  refine ⟨?_, ?_, ?_⟩
  · rintro (hp | ⟨d0, hd0, hne⟩)
    · have hcond : propsDifferB params.properties s.properties = true := by
        simp [propsDifferB, hp]
      simp [urlToAction, hcond]
    · have hcond : dateDiffersB s.selectedDate (params.date.getD today) =
          true := by
        simp [dateDiffersB, hd0, hne]
      simp [urlToAction, hcond]
  · intro hp hd hsess
    have hc1 : propsDifferB params.properties s.properties = false := by
      simp [propsDifferB, hp]
    have hc2 : dateDiffersB s.selectedDate (params.date.getD today) =
        false := by
      cases hsel : s.selectedDate with
      | none => rfl
      | some d1 => simp [dateDiffersB, hd d1 hsel]
    simp [urlToAction, hc1, hc2, hsess]
  · intro rid hrid hne hcur
    simp only [urlToAction, hrid]
    split
    · simp [hne, hcur]
    · split
      · simp [hne, hcur]
      · simp [hne, hcur]

/-- C3 witness: a URL change carrying new properties, a non-today date,
and a new recording id against the default state calls `setFilters` with
the decoded values and updates the selection; a URL change carrying
nothing against the default (sessionless) state triggers `loadSessions`. -/
theorem c3_witness :
    (urlToAction 0 initialState
      { date := some 5
        properties := some [{ key := "k", op := "eq", value := "v" }]
        sessionRecordingId := some "r2" }).setFiltersCall =
      some ([{ key := "k", op := "eq", value := "v" }], 5) ∧
    (urlToAction 0 initialState
      { date := some 5
        properties := some [{ key := "k", op := "eq", value := "v" }]
        sessionRecordingId := some "r2" }).setSessionRecordingIdCall =
      some "r2" ∧
    (urlToAction 0 initialState
      { date := none, properties := none, sessionRecordingId := none
      }).loadSessionsTriggered = true := by
  refine ⟨?_, ?_, ?_⟩
  · exact (c3_url_to_action 0 initialState _).1 (Or.inl (by decide))
  · exact (c3_url_to_action 0 initialState _).2.2 "r2" rfl (by decide)
      (by decide)
  · exact (c3_url_to_action 0 initialState _).2.1 (by decide)
      (fun d0 h => by simp [initialState] at h) rfl

/-- C4: for every controller state, with the router's `properties` search
parameter in sync with the state's property filters (the encoder copies
it from the router, not from the state), encoding the state with
`buildURL` and applying the decoded parameters through `urlToAction`
reproduces the same selected date, property-filter list, and selected
recording id; and a selected date equal to today encodes to an absent
`date` parameter. -/
theorem c4_url_roundtrip (today : Day)
    (routerProps : Option (List PropertyFilter)) (s : SessionsTableState)
    (hsync : routerProps.getD [] = s.properties) :
    (applyUrlToActionState today s
      (buildURL today routerProps s.selectedDate
        s.sessionRecordingId)).selectedDate = s.selectedDate ∧
    (applyUrlToActionState today s
      (buildURL today routerProps s.selectedDate
        s.sessionRecordingId)).properties = s.properties ∧
    (applyUrlToActionState today s
      (buildURL today routerProps s.selectedDate
        s.sessionRecordingId)).sessionRecordingId = s.sessionRecordingId ∧
    (s.selectedDate = some today →
      (buildURL today routerProps s.selectedDate
        s.sessionRecordingId).date = none) := by
  have hpp : (buildURL today routerProps s.selectedDate
      s.sessionRecordingId).properties = routerProps := rfl
  have hrec : (buildURL today routerProps s.selectedDate
      s.sessionRecordingId).sessionRecordingId =
      (if jsTruthyStr s.sessionRecordingId then s.sessionRecordingId
       else none) := rfl
  have hc1 : propsDifferB routerProps s.properties = false := by
    simp [propsDifferB, hsync]
  have hc2 : dateDiffersB s.selectedDate
      ((buildURL today routerProps s.selectedDate
        s.sessionRecordingId).date.getD today) = false := by
    cases hsel : s.selectedDate with
    | none => rfl
    | some d =>
        by_cases hd : d = today
        · simp [buildURL, dateDiffersB, hd]
        · simp [buildURL, dateDiffersB, hd]
  have hrecnone :
      (match (if jsTruthyStr s.sessionRecordingId then s.sessionRecordingId
          else none : Option SessionRecordingId) with
        | some rid =>
            if rid ≠ "" ∧ s.sessionRecordingId ≠ some rid then some rid
            else none
        | none => none) = none := by
    cases hsel : s.sessionRecordingId with
    | none => simp [jsTruthyStr]
    | some rid =>
        by_cases hr : rid = ""
        · simp [jsTruthyStr, hr]
        · simp [jsTruthyStr, hr]
  have heff : urlToAction today s
      (buildURL today routerProps s.selectedDate s.sessionRecordingId) =
      { setFiltersCall := none
        loadSessionsTriggered := decide (s.sessions.length = 0)
        setSessionRecordingIdCall := none } := by
    simp only [urlToAction, hpp, hrec, hc1, hc2, Bool.or_self,
      Bool.false_eq_true, if_false, hrecnone]
    by_cases hs : s.sessions.length = 0
    · simp [hs]
    · simp [hs]
  refine ⟨?_, ?_, ?_, ?_⟩
  · simp only [applyUrlToActionState, heff]
  · simp only [applyUrlToActionState, heff]
  · simp only [applyUrlToActionState, heff]
  · intro hd
    rw [hd]
    simp [buildURL]

/-- C4 witness: the round trip evaluated with today selected, one property
filter in sync with the router, and recording r1 selected — the date
parameter is absent and the decoded state matches — and evaluated at the
default state with no date selected, which is likewise reproduced. -/
theorem c4_witness :
    (applyUrlToActionState 0 initialState
      (buildURL 0 none initialState.selectedDate
        initialState.sessionRecordingId)).selectedDate = none ∧
    (applyUrlToActionState 0 initialState
      (buildURL 0 none initialState.selectedDate
        initialState.sessionRecordingId)).properties = [] ∧
    (applyUrlToActionState 0 initialState
      (buildURL 0 none initialState.selectedDate
        initialState.sessionRecordingId)).sessionRecordingId = none ∧
    (applyUrlToActionState 0
      { sessions := []
        isLoadingNext := false
        nextOffset := none
        selectedDate := some 0
        properties := [{ key := "k", op := "eq", value := "v" }]
        sessionRecordingId := some "r1" }
      (buildURL 0 (some [{ key := "k", op := "eq", value := "v" }])
        (some 0) (some "r1"))).selectedDate = some 0 ∧
    (applyUrlToActionState 0
      { sessions := []
        isLoadingNext := false
        nextOffset := none
        selectedDate := some 0
        properties := [{ key := "k", op := "eq", value := "v" }]
        sessionRecordingId := some "r1" }
      (buildURL 0 (some [{ key := "k", op := "eq", value := "v" }])
        (some 0) (some "r1"))).properties =
      [{ key := "k", op := "eq", value := "v" }] ∧
    (applyUrlToActionState 0
      { sessions := []
        isLoadingNext := false
        nextOffset := none
        selectedDate := some 0
        properties := [{ key := "k", op := "eq", value := "v" }]
        sessionRecordingId := some "r1" }
      (buildURL 0 (some [{ key := "k", op := "eq", value := "v" }])
        (some 0) (some "r1"))).sessionRecordingId = some "r1" ∧
    (buildURL 0 (some [{ key := "k", op := "eq", value := "v" }])
      (some 0) (some "r1")).date = none := by
  have h0 := c4_url_roundtrip 0 none initialState rfl
  have h := c4_url_roundtrip 0
    (some [{ key := "k", op := "eq", value := "v" }])
    { sessions := []
      isLoadingNext := false
      nextOffset := none
      selectedDate := some 0
      properties := [{ key := "k", op := "eq", value := "v" }]
      sessionRecordingId := some "r1" }
    rfl
  exact ⟨h0.1, h0.2.1, h0.2.2.1, h.1, h.2.1, h.2.2.1, h.2.2.2 rfl⟩

/-- In a duplicate-free recording sequence, the element after the first
occurrence of `x` has `x` as its `prev` neighbor. -/
theorem nav_next_imp_prev (recs : List SessionRecordingId)
    (x y : SessionRecordingId) (hnodup : recs.Nodup)
    (hnext : (sessionRecordingNavigation recs (some x)).next = some y) :
    (sessionRecordingNavigation recs (some y)).prev = some x := by
  by_cases hx : x ∈ recs
  · simp only [sessionRecordingNavigation, hx, if_true] at hnext
    by_cases hlt : recs.indexOf x + 1 < recs.length
    · rw [if_pos hlt] at hnext
      have hixlt : recs.indexOf x < recs.length := Nat.lt_of_succ_lt hlt
      have hy : recs[recs.indexOf x + 1] = y := by
        rw [List.getElem?_eq_getElem hlt] at hnext
        exact Option.some.inj hnext
      have hymem : y ∈ recs := hy ▸ List.getElem_mem hlt
      have hjlt : recs.indexOf y < recs.length :=
        List.indexOf_lt_length.2 hymem
      have hjy : recs[recs.indexOf y] = y := List.getElem_indexOf hjlt
      have hj : recs.indexOf y = recs.indexOf x + 1 :=
        (hnodup.getElem_inj_iff).1 (hjy.trans hy.symm)
      simp only [sessionRecordingNavigation, hymem, if_true]
      rw [hj, if_pos (Nat.succ_pos _), Nat.add_sub_cancel,
        List.getElem?_eq_getElem hixlt, List.getElem_indexOf hixlt]
    · rw [if_neg hlt] at hnext
      exact absurd hnext (by simp)
  · simp [sessionRecordingNavigation, hx] at hnext

/-- C7 counterexample: with recording id y occurring in two sessions, the
flattened sequence is y, x, y; `next` of x is y (the second occurrence),
but recomputing navigation at y resolves y to its first occurrence, whose
`prev` is absent — it does not resolve back to x. -/
theorem c7_counterexample :
    (sessionRecordingNavigation
      (orderedSessionRecordingIds
        [{ global_session_id := 1, session_recording_ids := ["y"] },
         { global_session_id := 2, session_recording_ids := ["x", "y"] }])
      (some "x")).next = some "y" ∧
    (sessionRecordingNavigation
      (orderedSessionRecordingIds
        [{ global_session_id := 1, session_recording_ids := ["y"] },
         { global_session_id := 2, session_recording_ids := ["x", "y"] }])
      (some "y")).prev ≠ some "x" := by
  decide

/-- C7 (amended): provided no recording id occurs twice across the loaded
sessions (the flattened sequence is duplicate-free), if the navigation
selector defines a next recording for X, then recomputing navigation with
that next recording as the selection yields a prev that resolves back
to X. -/
theorem c7_navigation_symmetry (sessions : List SessionType)
    (x y : SessionRecordingId)
    (hnodup : (orderedSessionRecordingIds sessions).Nodup)
    (hnext : (sessionRecordingNavigation (orderedSessionRecordingIds sessions)
      (some x)).next = some y) :
    (sessionRecordingNavigation (orderedSessionRecordingIds sessions)
      (some y)).prev = some x :=
  nav_next_imp_prev _ x y hnodup hnext

/-- C7 witness: one session with recordings a then b; next of a is b and
prev of b resolves back to a. -/
theorem c7_witness :
    (sessionRecordingNavigation
      (orderedSessionRecordingIds
        [{ global_session_id := 1, session_recording_ids := ["a", "b"] }])
      (some "b")).prev = some "a" :=
  c7_navigation_symmetry
    [{ global_session_id := 1, session_recording_ids := ["a", "b"] }]
    "a" "b" (by decide) (by decide)
